import Mathlib

/-!
Shallow embedding of the device-transport layer of OpenHantek6022
(`src/openhantek/src/usb/scopedevice.cpp`) and proofs about its
specification.

The state of a `ScopeDevice` object is made explicit; the libusb calls
(`libusb_open`, `libusb_claim_interface`, `libusb_bulk_transfer`,
`libusb_control_transfer`) are modelled by oracle parameters giving the
outcome of each underlying call, since their results depend on the
hardware.  Unbounded C++ loops (the retry loops with `attempts == -1`)
are modelled with an explicit fuel argument; a `none` result means the
loop had not terminated within the given fuel.  Buffer contents are not
modelled: every claim is about byte counts, error codes and lifecycle
state.  Fields and helpers declared only in `scopedevice.h` (which is
not part of the sources) are modelled from the spec and marked as such.
-/

/-! ## libusb and protocol constants -/

/-- libusb success code (`LIBUSB_SUCCESS` in libusb.h). -/
def LIBUSB_SUCCESS : Int := 0

/-- libusb error code for a vanished device (`LIBUSB_ERROR_NO_DEVICE`). -/
def LIBUSB_ERROR_NO_DEVICE : Int := -4

/-- libusb error code `LIBUSB_ERROR_NOT_FOUND`. -/
def LIBUSB_ERROR_NOT_FOUND : Int := -5

/-- libusb error code `LIBUSB_ERROR_TIMEOUT`. -/
def LIBUSB_ERROR_TIMEOUT : Int := -7

/-- libusb vendor-specific interface class (`LIBUSB_CLASS_VENDOR_SPEC = 0xff`). -/
def LIBUSB_CLASS_VENDOR_SPEC : Nat := 255

/-- Modelled from the spec: `HANTEK_EP_OUT`, the known instrument bulk-OUT
endpoint address, is defined in a hantekprotocol header that is not under
`src/`; only equality comparisons with it matter for the claims. -/
def HANTEK_EP_OUT : Nat := 2

/-- Modelled from the spec: `HANTEK_EP_IN`, the known instrument bulk-IN
endpoint address, is defined in a hantekprotocol header that is not under
`src/`; only equality comparisons with it matter for the claims. -/
def HANTEK_EP_IN : Nat := 134

/-! ## Device state -/

/-- The observable state of one `ScopeDevice` object.

`hasDevice` models `device != nullptr`, `hasHandle` models
`handle != nullptr`.  `disconnectEmits` counts the
`emit deviceDisconnected()` notifications and `unrefCount` counts the
`libusb_unref_device` calls (the non-Windows build is modelled, where
`disconnectFromDevice` performs the unref).  `modelVendorID`,
`modelProductID` and `modelFirmwareVersion` are the expected values from
the `DSOModel` registry; `idVendor`, `idProduct` and `bcdDevice` are the
raw descriptor values. -/
structure ScopeDevice where
  realHW : Bool
  hasDevice : Bool
  hasHandle : Bool
  disconnected : Bool
  nInterface : Int
  inPacketLength : Nat
  outPacketLength : Nat
  serialNumber : String
  stopTransfer : Bool
  idVendor : Nat
  idProduct : Nat
  bcdDevice : Nat
  modelVendorID : Nat
  modelProductID : Nat
  modelFirmwareVersion : Nat
  disconnectEmits : Nat
  unrefCount : Nat
deriving Repr, DecidableEq

/-- Modelled from the spec: the real-hardware constructor.  The in-class
default values of the members declared in `scopedevice.h` (not under
`src/`) follow the spec: a freshly discovered device starts in the
`Disconnected` state with no open handle, no claimed interface and zero
endpoint packet sizes. -/
def ScopeDevice.init (modelVendorID modelProductID modelFirmwareVersion : Nat)
    (idVendor idProduct bcdDevice : Nat) : ScopeDevice where
  realHW := true
  hasDevice := true
  hasHandle := false
  disconnected := true
  nInterface := -1
  inPacketLength := 0
  outPacketLength := 0
  serialNumber := ""
  stopTransfer := false
  idVendor := idVendor
  idProduct := idProduct
  bcdDevice := bcdDevice
  modelVendorID := modelVendorID
  modelProductID := modelProductID
  modelFirmwareVersion := modelFirmwareVersion
  disconnectEmits := 0
  unrefCount := 0

/-- Modelled from the spec: `isDemoDevice` (declared in `scopedevice.h`) —
the demo variant is the one constructed with `realHW = false`. -/
def ScopeDevice.isDemoDevice (s : ScopeDevice) : Bool := !s.realHW

/-- `ScopeDevice::isConnected` (scopedevice.cpp line 166):
`isDemoDevice() || (!disconnected && handle != nullptr)`. -/
def ScopeDevice.isConnected (s : ScopeDevice) : Bool :=
  s.isDemoDevice || (!s.disconnected && s.hasHandle)

/-- `ScopeDevice::needsFirmware` (scopedevice.cpp lines 169-172):
`idProduct != model->productID || idVendor != model->vendorID ||
 bcdDevice < model->firmwareVersion`. -/
def ScopeDevice.needsFirmware (s : ScopeDevice) : Bool :=
  s.idProduct != s.modelProductID || s.idVendor != s.modelVendorID ||
    decide (s.bcdDevice < s.modelFirmwareVersion)

/-- `ScopeDevice::disconnectFromDevice` (scopedevice.cpp lines 143-163):
sets `disconnected`, returns early when `device == nullptr`, otherwise
releases the claimed interface and closes the handle when one is open,
drops one device reference (non-Windows build) and emits exactly one
`deviceDisconnected` notification per call. -/
def ScopeDevice.disconnectFromDevice (s : ScopeDevice) : ScopeDevice :=
  let s1 := { s with disconnected := true }
  if !s1.hasDevice then s1
  else
    let s2 :=
      if s1.hasHandle then { s1 with nInterface := -1, hasHandle := false }
      else { s1 with hasHandle := false }
    { s2 with unrefCount := s2.unrefCount + 1, disconnectEmits := s2.disconnectEmits + 1 }

/-! ## Device identity -/

/-- Truncation to the 64-bit unsigned range of `UniqueUSBid`. -/
def u64 (n : Nat) : Nat := n % 2 ^ 64

/-- The port-tree loop of `ScopeDevice::computeUSBdeviceID`
(scopedevice.cpp lines 42-46): seven times, shift the id left by one
nibble and, while port numbers remain, merge in the next port number
masked to 4 bits. -/
def portTreeLoop : Nat → List Nat → Nat → Nat
  | uid, _, 0 => uid
  | uid, [], n + 1 => portTreeLoop (u64 (uid <<< 4)) [] n
  | uid, p :: rest, n + 1 => portTreeLoop (u64 ((uid <<< 4) ||| (p &&& 15))) rest n

/-- `ScopeDevice::computeUSBdeviceID` (scopedevice.cpp lines 24-52) on the
topology (bus number and port path) and descriptor values of a device:
`bus(4) | ports(7 x 4, zero padded) | idVendor(16) | bcdDevice(16)`. -/
def computeUSBdeviceID (busNumber : Nat) (ports : List Nat)
    (idVendor bcdDevice : Nat) : Nat :=
  let uid0 := busNumber &&& 15
  let uid1 := portTreeLoop uid0 ports 7
  let uid2 := u64 (u64 (uid1 <<< 16) ||| idVendor)
  u64 (u64 (uid2 <<< 16) ||| bcdDevice)

/-! ## Interface claiming and connecting -/

/-- One endpoint descriptor, as read by `claimInterface`. -/
structure EndpointDescriptor where
  bEndpointAddress : Nat
  wMaxPacketSize : Nat
deriving Repr, DecidableEq

/-- One interface altsetting descriptor, as scanned by `connectDevice`. -/
structure InterfaceDescriptor where
  bInterfaceNumber : Nat
  bInterfaceClass : Nat
  bInterfaceSubClass : Nat
  bInterfaceProtocol : Nat
  endpoints : List EndpointDescriptor
deriving Repr, DecidableEq

/-- One interface of a configuration (its list of altsettings). -/
structure UsbInterface where
  altsettings : List InterfaceDescriptor
deriving Repr, DecidableEq

/-- A configuration descriptor: the list of interfaces. -/
structure ConfigDescriptor where
  interfaces : List UsbInterface
deriving Repr, DecidableEq

/-- The endpoint scan step of `ScopeDevice::claimInterface`
(scopedevice.cpp lines 131-138): store the packet size of the endpoint
whose address is `HANTEK_EP_OUT` resp. `HANTEK_EP_IN`. -/
def claimEndpointStep (t : ScopeDevice) (ep : EndpointDescriptor) : ScopeDevice :=
  if ep.bEndpointAddress = HANTEK_EP_OUT then
    { t with outPacketLength := ep.wMaxPacketSize }
  else if ep.bEndpointAddress = HANTEK_EP_IN then
    { t with inPacketLength := ep.wMaxPacketSize }
  else t

/-- `ScopeDevice::claimInterface` (scopedevice.cpp lines 120-140).
`claimResult` is the outcome of the underlying `libusb_claim_interface`
call.  On success records the interface number, resets both endpoint
packet sizes to 0 and then stores the `wMaxPacketSize` of every endpoint
whose address equals `HANTEK_EP_OUT` resp. `HANTEK_EP_IN`. -/
def ScopeDevice.claimInterface (s : ScopeDevice)
    (interfaceDescriptor : InterfaceDescriptor) (claimResult : Int) :
    ScopeDevice × Int :=
  if claimResult < 0 then (s, claimResult)
  else
    let s1 := { s with nInterface := (interfaceDescriptor.bInterfaceNumber : Int),
                       outPacketLength := 0, inPacketLength := 0 }
    (interfaceDescriptor.endpoints.foldl claimEndpointStep s1, LIBUSB_SUCCESS)

/-- The interface scan of `ScopeDevice::connectDevice` (scopedevice.cpp
lines 83-94): skip interfaces without altsettings, take the first
altsetting, and stop at the first interface whose class/subclass/protocol
triple is vendor-specific/0/0. -/
def findVendorInterface : List UsbInterface → Option InterfaceDescriptor
  | [] => none
  | i :: rest =>
    match i.altsettings with
    | [] => findVendorInterface rest
    | alt0 :: _ =>
      if alt0.bInterfaceClass = LIBUSB_CLASS_VENDOR_SPEC ∧
         alt0.bInterfaceSubClass = 0 ∧ alt0.bInterfaceProtocol = 0 then some alt0
      else findVendorInterface rest

/-- `ScopeDevice::connectDevice` (scopedevice.cpp lines 65-107).
`openResult` is the outcome of `libusb_open`, `config` the configuration
descriptor, `claimResult` the outcome of `libusb_claim_interface` for the
selected interface, `serial` the serial number string read after opening.
The returned triple is the new state, the boolean result of the function,
and the underlying libusb error code surfaced in `errorMessage` (if any). -/
def ScopeDevice.connectDevice (s : ScopeDevice) (openResult : Int)
    (config : ConfigDescriptor) (claimResult : Int) (serial : String) :
    ScopeDevice × Bool × Option Int :=
  if s.needsFirmware then (s, false, none)
  else if s.isConnected then (s, true, none)
  else if openResult ≠ LIBUSB_SUCCESS then
    ({ s with hasHandle := false }, false, some openResult)
  else
    let s1 := { s with hasHandle := true, serialNumber := serial }
    match findVendorInterface config.interfaces with
    | none => (s1, false, some LIBUSB_ERROR_NOT_FOUND)
    | some alt0 =>
      let claimed := s1.claimInterface alt0 claimResult
      if claimed.2 ≠ LIBUSB_SUCCESS then (claimed.1, false, some claimed.2)
      else ({ claimed.1 with disconnected := false }, true, none)

/-! ## Transfers -/

/-- The retry loop of `ScopeDevice::controlTransfer` (scopedevice.cpp
lines 242-244): starting from `errorCode = LIBUSB_ERROR_TIMEOUT`, while
`(attempt < attempts || attempts == -1) && errorCode ==
LIBUSB_ERROR_TIMEOUT`, perform one more underlying call (`oracle`
gives the outcome of the call at each attempt index).  Returns the number
of underlying calls performed together with the final error code, or
`none` when the fuel ran out with the loop still running. -/
def retryGo (oracle : Nat → Int) (attempts : Int) :
    Nat → Nat → Int → Option (Nat × Int)
  | fuel, attempt, errorCode =>
    if ((attempt : Int) < attempts ∨ attempts = -1) ∧
        errorCode = LIBUSB_ERROR_TIMEOUT then
      match fuel with
      | 0 => none
      | f + 1 => retryGo oracle attempts f (attempt + 1) (oracle attempt)
    else some (attempt, errorCode)

/-- `ScopeDevice::controlTransfer` (scopedevice.cpp lines 233-249).
Returns the new state, the returned code (`libusb_control_transfer`
result: byte count or negative error) and the number of underlying
calls performed.  `type`, `request`, `length`, `value` and `index` are
forwarded to the underlying call and do not otherwise influence the
modelled state. -/
def ScopeDevice.controlTransfer (s : ScopeDevice) (oracle : Nat → Int)
    (type request : Nat) (length : Nat) (value index : Int)
    (attempts : Int) (fuel : Nat) : Option (ScopeDevice × Int × Nat) :=
  if !s.hasHandle || s.disconnected then some (s, LIBUSB_ERROR_NO_DEVICE, 0)
  else
    match retryGo oracle attempts fuel 0 LIBUSB_ERROR_TIMEOUT with
    | none => none
    | some (nCalls, errorCode) =>
      let s1 := if errorCode = LIBUSB_ERROR_NO_DEVICE then s.disconnectFromDevice
                else s
      some (s1, errorCode, nCalls)

/-- The retry loop of `ScopeDevice::bulkTransfer` (scopedevice.cpp lines
180-184).  The oracle gives, per attempt, the `libusb_bulk_transfer`
return code and the value it stored in `transferred`.  Returns the
number of calls, the final error code and the final `transferred`
value. -/
def bulkRetryGo (oracle : Nat → Int × Nat) (attempts : Int) :
    Nat → Nat → Int → Nat → Option (Nat × Int × Nat)
  | fuel, attempt, errorCode, transferred =>
    if ((attempt : Int) < attempts ∨ attempts = -1) ∧
        errorCode = LIBUSB_ERROR_TIMEOUT then
      match fuel with
      | 0 => none
      | f + 1 =>
        bulkRetryGo oracle attempts f (attempt + 1) (oracle attempt).1
          (oracle attempt).2
    else some (attempt, errorCode, transferred)

/-- `ScopeDevice::bulkTransfer` (scopedevice.cpp lines 175-192): rejects
with `LIBUSB_ERROR_NO_DEVICE` when no handle is open; otherwise runs the
retry loop, drives the device to disconnected when the loop ended with
`LIBUSB_ERROR_NO_DEVICE`, and returns the error code when negative or
the transferred byte count otherwise. -/
def ScopeDevice.bulkTransfer (s : ScopeDevice) (oracle : Nat → Int × Nat)
    (endpoint : Nat) (length : Nat) (attempts : Int) (timeout : Nat)
    (fuel : Nat) : Option (ScopeDevice × Int) :=
  if !s.hasHandle then some (s, LIBUSB_ERROR_NO_DEVICE)
  else
    match bulkRetryGo oracle attempts fuel 0 LIBUSB_ERROR_TIMEOUT 0 with
    | none => none
    | some (_, errorCode, transferred) =>
      let s1 := if errorCode = LIBUSB_ERROR_NO_DEVICE then s.disconnectFromDevice
                else s
      if errorCode < 0 then some (s1, errorCode)
      else some (s1, (transferred : Int))

/-- The chunk size of the chunked mode of `bulkReadMulti`
(scopedevice.cpp line 202): `512 * 78`. -/
def packetLength : Nat := 512 * 78

/-- The timeout expression handed to the single bulk transfer in bulk
(non-chunked) mode (scopedevice.cpp line 222):
`HANTEK_TIMEOUT_MULTI * length / inPacketLength`, computed in 32-bit
unsigned arithmetic — `length` is `unsigned` and the result is the
`unsigned int timeout` argument, so the product wraps mod `2 ^ 32` —
followed by integer division with no guard against
`inPacketLength = 0`.  The constant `HANTEK_TIMEOUT_MULTI` is defined in
a hantekprotocol header outside `src/`, so it stays a parameter
`timeoutMulti` here. -/
def bulkModeTimeout (timeoutMulti length inPacketLength : Nat) : Nat :=
  timeoutMulti * length % 2 ^ 32 / inPacketLength

/-- The chunk loop of `ScopeDevice::bulkReadMulti` (scopedevice.cpp lines
206-213): while `received < length && retCode == packetLength`, check the
stop flag (`stopObs` gives the value of the shared stop flag observed at
each iteration; it is written concurrently by other threads, hence an
observation sequence) and perform one chunk transfer; positive results
accumulate into `received`.  Returns the state, the loop variable
`packet` (the number of chunk transfers issued), `retCode` and
`received`. -/
def ScopeDevice.bulkReadChunksGo (oracles : Nat → Nat → Int × Nat)
    (attempts : Int) (timeoutMulti : Nat) (length : Nat)
    (stopObs : Nat → Bool) (fuelPerCall : Nat) :
    ScopeDevice → Nat → Int → Nat → Nat → Option (ScopeDevice × Nat × Int × Nat)
  | s, packet, retCode, received, fuelLoop =>
    if received < length ∧ retCode = (packetLength : Int) then
      match fuelLoop with
      | 0 => none
      | fl + 1 =>
        if stopObs packet then some (s, packet, retCode, received)
        else
          match s.bulkTransfer (oracles packet) HANTEK_EP_IN
              (min (length - received) packetLength) attempts
              (timeoutMulti * 10) fuelPerCall with
          | none => none
          | some (s1, ret) =>
            let received1 := if ret > 0 then received + ret.toNat else received
            ScopeDevice.bulkReadChunksGo oracles attempts timeoutMulti length
              stopObs fuelPerCall s1 (packet + 1) ret received1 fl
    else some (s, packet, retCode, received)

/-- `ScopeDevice::bulkReadMulti` (scopedevice.cpp lines 195-230).
`received0` is the value of the caller's `received` out-parameter on
entry (returned unchanged on the paths that never assign it).  The
result is the new state, the returned code, and the final value of the
`received` out-parameter.  `stopObs` gives the observed values of the
shared stop flag (`hasStopped` is declared in `scopedevice.h`, not under
`src/`; modelled from the spec as a read of that flag). -/
def ScopeDevice.bulkReadMulti (s : ScopeDevice) (oracles : Nat → Nat → Int × Nat)
    (length : Nat) (captureSmallBlocks : Bool) (received0 : Nat)
    (attempts : Int) (stopObs : Nat → Bool) (timeoutMulti : Nat)
    (fuelPerCall fuelLoop : Nat) : Option (ScopeDevice × Int × Nat) :=
  if !s.hasHandle || s.disconnected then some (s, LIBUSB_ERROR_NO_DEVICE, received0)
  else if captureSmallBlocks then
    match ScopeDevice.bulkReadChunksGo oracles attempts timeoutMulti length
        stopObs fuelPerCall s 0 (packetLength : Int) 0 fuelLoop with
    | none => none
    | some (s1, _, retCode, received) =>
      let retCode1 := if received > 0 then (received : Int) else retCode
      some (s1, retCode1, received)
  else
    if stopObs 0 then some (s, 0, received0)
    else
      match s.bulkTransfer (oracles 0) HANTEK_EP_IN length attempts
          (bulkModeTimeout timeoutMulti length s.inPacketLength) fuelPerCall with
      | none => none
      | some (s1, retCode) =>
        let received := if retCode < 0 then 0 else retCode.toNat
        some ({ s1 with stopTransfer := false }, retCode, received)

/-! ## Claim C6: needsFirmware characterisation -/

/-- C6: `needsFirmware()` returns true iff the descriptor's vendor ID or
product ID differs from the expected model's, or its firmware version is
strictly below the expected minimum; for matching IDs with firmware
exactly at the minimum it returns false. -/
theorem c6_needsFirmware_iff (s : ScopeDevice) :
    (s.needsFirmware = true ↔
      (s.idVendor ≠ s.modelVendorID ∨ s.idProduct ≠ s.modelProductID ∨
        s.bcdDevice < s.modelFirmwareVersion)) ∧
    (s.idVendor = s.modelVendorID → s.idProduct = s.modelProductID →
      s.bcdDevice = s.modelFirmwareVersion → s.needsFirmware = false) := by
  constructor
  · simp only [ScopeDevice.needsFirmware, Bool.or_eq_true, bne_iff_ne,
      decide_eq_true_eq]
    tauto
  · intro h1 h2 h3
    simp [ScopeDevice.needsFirmware, h1, h2, h3]

/-- Witness for C6 at a concrete device: matching vendor (0x04b5) and
product (0x6022) IDs with firmware exactly at the minimum (0x0204) give
`needsFirmware() == false`. -/
theorem c6_needsFirmware_iff_witness :
    (ScopeDevice.init 1205 24610 516 1205 24610 516).needsFirmware = false :=
  (c6_needsFirmware_iff (ScopeDevice.init 1205 24610 516 1205 24610 516)).2
    rfl rfl rfl

/-! ## Claim C8: idempotence of disconnectFromDevice -/

/-- C8 counterexample: a second `disconnectFromDevice()` on an
already-disconnected real device does not leave the state unchanged —
the source emits `deviceDisconnected` (and drops one more libusb device
reference) on every call with `device != nullptr`, not only on the
transition into the disconnected state. -/
theorem c8_close_not_idempotent_cex :
    ¬ ((({ ScopeDevice.init 1205 24610 516 1205 24610 516 with
            hasHandle := true, disconnected := false, nInterface := 0 } :
          ScopeDevice).disconnectFromDevice).disconnectFromDevice =
        ({ ScopeDevice.init 1205 24610 516 1205 24610 516 with
            hasHandle := true, disconnected := false, nInterface := 0 } :
          ScopeDevice).disconnectFromDevice) := by
  decide

/-- C8 (amended): on a real device, `disconnectFromDevice()` with an open
handle releases the claimed interface and clears its number to -1; a
second call leaves the disconnected flag, handle, claimed-interface
number and packet sizes unchanged, but fires one more disconnection
notification and drops one more device reference on every call. -/
theorem c8_close_idempotent_amended (s : ScopeDevice) (hDev : s.hasDevice = true) :
    (s.hasHandle = true → s.disconnectFromDevice.nInterface = -1) ∧
    (s.disconnectFromDevice.disconnectFromDevice.disconnected =
        s.disconnectFromDevice.disconnected ∧
      s.disconnectFromDevice.disconnectFromDevice.hasHandle =
        s.disconnectFromDevice.hasHandle ∧
      s.disconnectFromDevice.disconnectFromDevice.nInterface =
        s.disconnectFromDevice.nInterface ∧
      s.disconnectFromDevice.disconnectFromDevice.inPacketLength =
        s.disconnectFromDevice.inPacketLength ∧
      s.disconnectFromDevice.disconnectFromDevice.outPacketLength =
        s.disconnectFromDevice.outPacketLength) ∧
    (s.disconnectFromDevice.disconnectFromDevice.disconnectEmits =
        s.disconnectFromDevice.disconnectEmits + 1 ∧
      s.disconnectFromDevice.disconnectFromDevice.unrefCount =
        s.disconnectFromDevice.unrefCount + 1) := by
  cases hH : s.hasHandle <;>
    simp [ScopeDevice.disconnectFromDevice, hDev, hH]

/-- Witness for C8 (amended) at a concrete connected device: the first
call clears the claimed interface number, and the second call fires one
more notification. -/
theorem c8_close_idempotent_amended_witness :
    ({ ScopeDevice.init 1205 24610 516 1205 24610 516 with
        hasHandle := true, disconnected := false, nInterface := 0 } :
      ScopeDevice).disconnectFromDevice.nInterface = -1 ∧
    ({ ScopeDevice.init 1205 24610 516 1205 24610 516 with
        hasHandle := true, disconnected := false, nInterface := 0 } :
      ScopeDevice).disconnectFromDevice.disconnectFromDevice.disconnectEmits =
      ({ ScopeDevice.init 1205 24610 516 1205 24610 516 with
          hasHandle := true, disconnected := false, nInterface := 0 } :
        ScopeDevice).disconnectFromDevice.disconnectEmits + 1 :=
  ⟨(c8_close_idempotent_amended
      { ScopeDevice.init 1205 24610 516 1205 24610 516 with
          hasHandle := true, disconnected := false, nInterface := 0 } rfl).1 rfl,
   (c8_close_idempotent_amended
      { ScopeDevice.init 1205 24610 516 1205 24610 516 with
          hasHandle := true, disconnected := false, nInterface := 0 } rfl).2.2.1⟩

/-! ## Claim C9: bulk-mode timeout monotonicity -/

/-- C9 counterexample: the bulk-mode timeout
`(HANTEK_TIMEOUT_MULTI * length) mod 2 ^ 32 / inPacketLength` uses
integer division, so it is not strictly increasing in the length for
every fixed nonzero `inPacketLength`: whatever the multiplier constant
is, e.g. at multiplier 10 with `inPacketLength = 512` the lengths 1 < 2
both give timeout 0. -/
theorem c9_timeout_strict_mono_cex :
    ¬ (∀ (timeoutMulti inPacketLength : Nat), inPacketLength ≠ 0 →
        ∀ l1 l2 : Nat, l1 < l2 →
          bulkModeTimeout timeoutMulti l1 inPacketLength <
            bulkModeTimeout timeoutMulti l2 inPacketLength) := by
  intro h
  exact absurd (h 10 512 (by decide) 1 2 (by decide)) (by decide)

/-- C9 (amended): as long as the 32-bit product does not wrap
(`timeoutMulti * l2 < 2 ^ 32`), the bulk-mode timeout is monotone
(non-decreasing) in the requested length for fixed nonzero
`inPacketLength`, and strictly increasing whenever
`inPacketLength ≤ HANTEK_TIMEOUT_MULTI`; strictness can fail otherwise
because of the integer division, and past the wrap boundary the 32-bit
product resets. -/
theorem c9_timeout_mono_amended (timeoutMulti inPacketLength l1 l2 : Nat)
    (hp : 0 < inPacketLength) (hnw : timeoutMulti * l2 < 2 ^ 32) :
    (l1 ≤ l2 →
      bulkModeTimeout timeoutMulti l1 inPacketLength ≤
        bulkModeTimeout timeoutMulti l2 inPacketLength) ∧
    (inPacketLength ≤ timeoutMulti → l1 < l2 →
      bulkModeTimeout timeoutMulti l1 inPacketLength <
        bulkModeTimeout timeoutMulti l2 inPacketLength) := by
  unfold bulkModeTimeout
  have hm2 : timeoutMulti * l2 % 2 ^ 32 = timeoutMulti * l2 :=
    Nat.mod_eq_of_lt hnw
  constructor
  · intro h
    have hm1 : timeoutMulti * l1 % 2 ^ 32 = timeoutMulti * l1 :=
      Nat.mod_eq_of_lt (Nat.lt_of_le_of_lt (Nat.mul_le_mul_left _ h) hnw)
    rw [hm1, hm2]
    exact Nat.div_le_div_right (Nat.mul_le_mul_left _ h)
  · intro hM h
    have hm1 : timeoutMulti * l1 % 2 ^ 32 = timeoutMulti * l1 :=
      Nat.mod_eq_of_lt
        (Nat.lt_of_le_of_lt (Nat.mul_le_mul_left _ (Nat.le_of_lt h)) hnw)
    rw [hm1, hm2]
    have h1 : timeoutMulti * l1 + inPacketLength ≤ timeoutMulti * l2 := by
      have h2 : timeoutMulti * (l1 + 1) ≤ timeoutMulti * l2 :=
        Nat.mul_le_mul_left _ h
      have h3 : timeoutMulti * (l1 + 1) = timeoutMulti * l1 + timeoutMulti := by
        ring
      omega
    have h4 : timeoutMulti * l1 / inPacketLength + 1 ≤
        timeoutMulti * l2 / inPacketLength := by
      have h5 : (timeoutMulti * l1 + inPacketLength) / inPacketLength =
          timeoutMulti * l1 / inPacketLength + 1 := Nat.add_div_right _ hp
      have h6 : (timeoutMulti * l1 + inPacketLength) / inPacketLength ≤
          timeoutMulti * l2 / inPacketLength := Nat.div_le_div_right h1
      omega
    omega

/-- Witness for C9 (amended): at multiplier 512, `inPacketLength = 512`,
lengths 1 < 2 the timeout strictly increases (1 < 2). -/
theorem c9_timeout_mono_amended_witness :
    bulkModeTimeout 512 1 512 ≤ bulkModeTimeout 512 2 512 ∧
    bulkModeTimeout 512 1 512 < bulkModeTimeout 512 2 512 :=
  ⟨(c9_timeout_mono_amended 512 512 1 2 (by decide) (by decide)).1 (by decide),
   (c9_timeout_mono_amended 512 512 1 2 (by decide) (by decide)).2 (by decide)
     (by decide)⟩

/-! ## Helper lemmas on the endpoint scan and connectDevice -/

/-- `claimEndpointStep` only ever updates the endpoint packet sizes. -/
theorem claimEndpointStep_fields (t : ScopeDevice) (ep : EndpointDescriptor) :
    (claimEndpointStep t ep).realHW = t.realHW ∧
    (claimEndpointStep t ep).hasDevice = t.hasDevice ∧
    (claimEndpointStep t ep).hasHandle = t.hasHandle ∧
    (claimEndpointStep t ep).disconnected = t.disconnected ∧
    (claimEndpointStep t ep).nInterface = t.nInterface := by
  unfold claimEndpointStep
  split
  · simp
  · split <;> simp

/-- The endpoint scan of `claimInterface` only ever updates the endpoint
packet sizes. -/
theorem claimFold_fields (eps : List EndpointDescriptor) (t : ScopeDevice) :
    (eps.foldl claimEndpointStep t).realHW = t.realHW ∧
    (eps.foldl claimEndpointStep t).hasDevice = t.hasDevice ∧
    (eps.foldl claimEndpointStep t).hasHandle = t.hasHandle ∧
    (eps.foldl claimEndpointStep t).disconnected = t.disconnected ∧
    (eps.foldl claimEndpointStep t).nInterface = t.nInterface := by
  induction eps generalizing t with
  | nil => simp
  | cons ep rest ih =>
    have h1 := claimEndpointStep_fields t ep
    have h2 := ih (claimEndpointStep t ep)
    simp only [List.foldl_cons]
    exact ⟨h2.1.trans h1.1, h2.2.1.trans h1.2.1, h2.2.2.1.trans h1.2.2.1,
      h2.2.2.2.1.trans h1.2.2.2.1, h2.2.2.2.2.trans h1.2.2.2.2⟩

/-- If no scanned endpoint has the instrument IN address, the endpoint
scan leaves `inPacketLength` at its initial value 0. -/
theorem claimFold_inPacket_zero (eps : List EndpointDescriptor) (t : ScopeDevice)
    (h : ∀ ep ∈ eps, ep.bEndpointAddress ≠ HANTEK_EP_IN)
    (ht : t.inPacketLength = 0) :
    (eps.foldl claimEndpointStep t).inPacketLength = 0 := by
  induction eps generalizing t with
  | nil => simpa using ht
  | cons ep rest ih =>
    simp only [List.foldl_cons]
    refine ih _ (fun e he => h e (List.mem_cons_of_mem _ he)) ?_
    have hne := h ep (List.mem_cons_self _ _)
    unfold claimEndpointStep
    rw [if_neg hne]
    split
    · simpa using ht
    · exact ht

/-- On a firmware-matching, not-yet-connected device, a successful open
followed by a successful claim of the found vendor interface yields the
connected state: the endpoint scan runs over the claimed state and only
then is `disconnected` cleared. -/
theorem connectDevice_claim_success (s : ScopeDevice)
    (hFw : s.needsFirmware = false) (hConn : s.isConnected = false)
    (config : ConfigDescriptor) (alt : InterfaceDescriptor)
    (hFind : findVendorInterface config.interfaces = some alt)
    (claimResult : Int) (hClaim : ¬ claimResult < 0) (serial : String) :
    s.connectDevice LIBUSB_SUCCESS config claimResult serial =
      ({ alt.endpoints.foldl claimEndpointStep
          { s with hasHandle := true, serialNumber := serial,
                   nInterface := (alt.bInterfaceNumber : Int),
                   outPacketLength := 0, inPacketLength := 0 } with
          disconnected := false }, true, none) := by
  unfold ScopeDevice.connectDevice ScopeDevice.claimInterface
  rw [hFw, hConn, hFind]
  simp [hClaim, LIBUSB_SUCCESS]

/-! ## Claim C10: unguarded division by inPacketLength -/

/-- C10: the bulk-mode timeout expression divides by `inPacketLength`
with no zero guard (`bulkModeTimeout` is literally the 32-bit product
`timeoutMulti * length % 2 ^ 32` divided by `inPacketLength`), and the
zero-divisor state is reachable: when the claimed vendor interface exposes no endpoint at the
instrument IN address, `connectDevice` still succeeds and leaves a
connected, open handle whose `inPacketLength` is 0.  (In the C++ source
the division is then undefined; Lean's total division renders it 0.) -/
theorem c10_unguarded_inPacketLength_division (s : ScopeDevice)
    (hFw : s.needsFirmware = false) (hConn : s.isConnected = false)
    (config : ConfigDescriptor) (alt : InterfaceDescriptor)
    (hFind : findVendorInterface config.interfaces = some alt)
    (hNoIn : ∀ ep ∈ alt.endpoints, ep.bEndpointAddress ≠ HANTEK_EP_IN)
    (claimResult : Int) (hClaim : ¬ claimResult < 0) (serial : String) :
    (∀ timeoutMulti length inPacketLength : Nat,
      bulkModeTimeout timeoutMulti length inPacketLength =
        timeoutMulti * length % 2 ^ 32 / inPacketLength) ∧
    (s.connectDevice LIBUSB_SUCCESS config claimResult serial).2.1 = true ∧
    (s.connectDevice LIBUSB_SUCCESS config claimResult serial).1.isConnected = true ∧
    (s.connectDevice LIBUSB_SUCCESS config claimResult serial).1.hasHandle = true ∧
    (s.connectDevice LIBUSB_SUCCESS config claimResult serial).1.inPacketLength = 0 := by
  rw [connectDevice_claim_success s hFw hConn config alt hFind claimResult hClaim serial]
  refine ⟨fun _ _ _ => rfl, rfl, ?_, ?_, ?_⟩
  · have hh := (claimFold_fields alt.endpoints
      { s with hasHandle := true, serialNumber := serial,
               nInterface := (alt.bInterfaceNumber : Int),
               outPacketLength := 0, inPacketLength := 0 }).2.2.1
    simp [ScopeDevice.isConnected, ScopeDevice.isDemoDevice, hh]
  · exact (claimFold_fields alt.endpoints
      { s with hasHandle := true, serialNumber := serial,
               nInterface := (alt.bInterfaceNumber : Int),
               outPacketLength := 0, inPacketLength := 0 }).2.2.1
  · exact claimFold_inPacket_zero alt.endpoints _ hNoIn rfl

/-- Witness for C10 at a concrete device and configuration: one vendor
interface whose only endpoint is the OUT endpoint. -/
theorem c10_unguarded_inPacketLength_division_witness :
    ((ScopeDevice.init 1205 24610 516 1205 24610 516).connectDevice
        LIBUSB_SUCCESS
        ⟨[⟨[⟨0, 255, 0, 0, [⟨HANTEK_EP_OUT, 512⟩]⟩]⟩]⟩ 0 "").2.1 = true ∧
    ((ScopeDevice.init 1205 24610 516 1205 24610 516).connectDevice
        LIBUSB_SUCCESS
        ⟨[⟨[⟨0, 255, 0, 0, [⟨HANTEK_EP_OUT, 512⟩]⟩]⟩]⟩ 0 "").1.inPacketLength = 0 := by
  refine ⟨(c10_unguarded_inPacketLength_division
      (ScopeDevice.init 1205 24610 516 1205 24610 516) rfl rfl
      ⟨[⟨[⟨0, 255, 0, 0, [⟨HANTEK_EP_OUT, 512⟩]⟩]⟩]⟩
      ⟨0, 255, 0, 0, [⟨HANTEK_EP_OUT, 512⟩]⟩ rfl ?_ 0 (by decide) "").2.1,
    (c10_unguarded_inPacketLength_division
      (ScopeDevice.init 1205 24610 516 1205 24610 516) rfl rfl
      ⟨[⟨[⟨0, 255, 0, 0, [⟨HANTEK_EP_OUT, 512⟩]⟩]⟩]⟩
      ⟨0, 255, 0, 0, [⟨HANTEK_EP_OUT, 512⟩]⟩ rfl ?_ 0 (by decide) "").2.2.2.2⟩ <;>
  · intro ep hep
    simp only [List.mem_singleton] at hep
    subst hep
    decide

/-! ## Claim C5: connectDevice contract -/

/-- C5: `connectDevice` fails when `needsFirmware()` is true; is a no-op
success when already connected; otherwise opens the handle, claims the
first vendor-specific interface found, and only then marks the device
connected; on an open failure, a missing vendor interface or a claim
failure the device stays disconnected and the underlying libusb error is
surfaced. -/
theorem c5_connectDevice_contract (s : ScopeDevice) (hReal : s.realHW = true)
    (openResult claimResult : Int) (config : ConfigDescriptor) (serial : String) :
    (s.needsFirmware = true →
      s.connectDevice openResult config claimResult serial = (s, false, none)) ∧
    (s.needsFirmware = false → s.isConnected = true →
      s.connectDevice openResult config claimResult serial = (s, true, none)) ∧
    (s.needsFirmware = false → s.disconnected = true →
      (openResult ≠ LIBUSB_SUCCESS →
        (s.connectDevice openResult config claimResult serial).1.isConnected = false ∧
        (s.connectDevice openResult config claimResult serial).2.1 = false ∧
        (s.connectDevice openResult config claimResult serial).2.2 = some openResult) ∧
      (openResult = LIBUSB_SUCCESS →
        findVendorInterface config.interfaces = none →
        (s.connectDevice openResult config claimResult serial).1.isConnected = false ∧
        (s.connectDevice openResult config claimResult serial).2.1 = false ∧
        (s.connectDevice openResult config claimResult serial).2.2 =
          some LIBUSB_ERROR_NOT_FOUND) ∧
      (∀ alt : InterfaceDescriptor, openResult = LIBUSB_SUCCESS →
        findVendorInterface config.interfaces = some alt → claimResult < 0 →
        (s.connectDevice openResult config claimResult serial).1.isConnected = false ∧
        (s.connectDevice openResult config claimResult serial).2.1 = false ∧
        (s.connectDevice openResult config claimResult serial).2.2 = some claimResult) ∧
      (∀ alt : InterfaceDescriptor, openResult = LIBUSB_SUCCESS →
        findVendorInterface config.interfaces = some alt → ¬ claimResult < 0 →
        (s.connectDevice openResult config claimResult serial).2.1 = true ∧
        (s.connectDevice openResult config claimResult serial).1.disconnected = false ∧
        (s.connectDevice openResult config claimResult serial).1.isConnected = true ∧
        (s.connectDevice openResult config claimResult serial).1.nInterface =
          (alt.bInterfaceNumber : Int))) := by
  have hIsConn : s.disconnected = true → s.isConnected = false := by
    intro hD
    simp [ScopeDevice.isConnected, ScopeDevice.isDemoDevice, hReal, hD]
  refine ⟨?_, ?_, ?_⟩
  · intro hFw
    unfold ScopeDevice.connectDevice
    rw [hFw]
    rfl
  · intro hFw hConn
    unfold ScopeDevice.connectDevice
    rw [hFw, hConn]
    rfl
  · intro hFw hDisc
    have hConn := hIsConn hDisc
    refine ⟨?_, ?_, ?_, ?_⟩
    · intro hOpen
      unfold ScopeDevice.connectDevice
      rw [hFw, hConn, if_neg (by simp), if_neg (by simp), if_pos hOpen]
      simp [ScopeDevice.isConnected, ScopeDevice.isDemoDevice, hReal, hDisc]
    · intro hOpen hFind
      subst hOpen
      unfold ScopeDevice.connectDevice
      rw [hFw, hConn, hFind]
      simp [ScopeDevice.isConnected, ScopeDevice.isDemoDevice, hReal, hDisc]
    · intro alt hOpen hFind hClaim
      subst hOpen
      unfold ScopeDevice.connectDevice ScopeDevice.claimInterface
      rw [hFw, hConn, hFind]
      simp only [ne_eq, not_true_eq_false, if_false, if_pos hClaim, ite_not]
      have h1 : claimResult ≠ LIBUSB_SUCCESS := by
        intro h
        rw [h] at hClaim
        exact absurd hClaim (by decide)
      simp [h1, ScopeDevice.isConnected, ScopeDevice.isDemoDevice, hReal, hDisc,
        hClaim]
    · intro alt hOpen hFind hClaim
      subst hOpen
      rw [connectDevice_claim_success s hFw hConn config alt hFind claimResult
        hClaim serial]
      have hh := claimFold_fields alt.endpoints
        { s with hasHandle := true, serialNumber := serial,
                 nInterface := (alt.bInterfaceNumber : Int),
                 outPacketLength := 0, inPacketLength := 0 }
      refine ⟨rfl, rfl, ?_, ?_⟩
      · simp [ScopeDevice.isConnected, ScopeDevice.isDemoDevice, hh.2.2.1]
      · exact hh.2.2.2.2

/-- Witness for C5 at concrete devices: a firmware-mismatched device
fails, an already-connected device is a no-op success, an open failure
surfaces the libusb code with the device disconnected, and a successful
open + claim connects and records the interface number. -/
theorem c5_connectDevice_contract_witness :
    ((ScopeDevice.init 1205 24610 516 1205 24610 515).connectDevice (-3)
        ⟨[⟨[⟨0, 255, 0, 0, [⟨HANTEK_EP_IN, 512⟩]⟩]⟩]⟩ 0 "" =
      (ScopeDevice.init 1205 24610 516 1205 24610 515, false, none)) ∧
    (({ ScopeDevice.init 1205 24610 516 1205 24610 516 with
          hasHandle := true, disconnected := false } : ScopeDevice).connectDevice
        (-3) ⟨[⟨[⟨0, 255, 0, 0, [⟨HANTEK_EP_IN, 512⟩]⟩]⟩]⟩ 0 "" =
      ({ ScopeDevice.init 1205 24610 516 1205 24610 516 with
          hasHandle := true, disconnected := false }, true, none)) ∧
    (((ScopeDevice.init 1205 24610 516 1205 24610 516).connectDevice (-3)
        ⟨[⟨[⟨0, 255, 0, 0, [⟨HANTEK_EP_IN, 512⟩]⟩]⟩]⟩ 0 "").1.isConnected = false ∧
      ((ScopeDevice.init 1205 24610 516 1205 24610 516).connectDevice (-3)
        ⟨[⟨[⟨0, 255, 0, 0, [⟨HANTEK_EP_IN, 512⟩]⟩]⟩]⟩ 0 "").2.1 = false ∧
      ((ScopeDevice.init 1205 24610 516 1205 24610 516).connectDevice (-3)
        ⟨[⟨[⟨0, 255, 0, 0, [⟨HANTEK_EP_IN, 512⟩]⟩]⟩]⟩ 0 "").2.2 = some (-3)) ∧
    (((ScopeDevice.init 1205 24610 516 1205 24610 516).connectDevice LIBUSB_SUCCESS
        ⟨[⟨[⟨0, 255, 0, 0, [⟨HANTEK_EP_IN, 512⟩]⟩]⟩]⟩ 0 "").2.1 = true ∧
      ((ScopeDevice.init 1205 24610 516 1205 24610 516).connectDevice LIBUSB_SUCCESS
        ⟨[⟨[⟨0, 255, 0, 0, [⟨HANTEK_EP_IN, 512⟩]⟩]⟩]⟩ 0 "").1.disconnected = false ∧
      ((ScopeDevice.init 1205 24610 516 1205 24610 516).connectDevice LIBUSB_SUCCESS
        ⟨[⟨[⟨0, 255, 0, 0, [⟨HANTEK_EP_IN, 512⟩]⟩]⟩]⟩ 0 "").1.isConnected = true ∧
      ((ScopeDevice.init 1205 24610 516 1205 24610 516).connectDevice LIBUSB_SUCCESS
        ⟨[⟨[⟨0, 255, 0, 0, [⟨HANTEK_EP_IN, 512⟩]⟩]⟩]⟩ 0 "").1.nInterface =
        ((0 : Nat) : Int)) :=
  ⟨(c5_connectDevice_contract (ScopeDevice.init 1205 24610 516 1205 24610 515)
      rfl (-3) 0 ⟨[⟨[⟨0, 255, 0, 0, [⟨HANTEK_EP_IN, 512⟩]⟩]⟩]⟩ "").1 rfl,
   (c5_connectDevice_contract
      { ScopeDevice.init 1205 24610 516 1205 24610 516 with
          hasHandle := true, disconnected := false }
      rfl (-3) 0 ⟨[⟨[⟨0, 255, 0, 0, [⟨HANTEK_EP_IN, 512⟩]⟩]⟩]⟩ "").2.1 rfl rfl,
   ((c5_connectDevice_contract (ScopeDevice.init 1205 24610 516 1205 24610 516)
      rfl (-3) 0 ⟨[⟨[⟨0, 255, 0, 0, [⟨HANTEK_EP_IN, 512⟩]⟩]⟩]⟩ "").2.2 rfl rfl).1
      (by decide),
   ((c5_connectDevice_contract (ScopeDevice.init 1205 24610 516 1205 24610 516)
      rfl LIBUSB_SUCCESS 0 ⟨[⟨[⟨0, 255, 0, 0, [⟨HANTEK_EP_IN, 512⟩]⟩]⟩]⟩ "").2.2
      rfl rfl).2.2.2 ⟨0, 255, 0, 0, [⟨HANTEK_EP_IN, 512⟩]⟩ rfl rfl (by decide)⟩

/-! ## Helper lemmas on disconnection and the retry loops -/

/-- `disconnectFromDevice` on a real device: not connected afterwards,
handle released, exactly one more notification fired. -/
theorem disconnectFromDevice_facts (s : ScopeDevice) (hReal : s.realHW = true)
    (hDev : s.hasDevice = true) :
    s.disconnectFromDevice.isConnected = false ∧
    s.disconnectFromDevice.hasHandle = false ∧
    s.disconnectFromDevice.disconnectEmits = s.disconnectEmits + 1 := by
  cases hH : s.hasHandle <;>
    simp [ScopeDevice.disconnectFromDevice, ScopeDevice.isConnected,
      ScopeDevice.isDemoDevice, hReal, hDev, hH]

/-- With a bounded attempt count `m` and every underlying call timing
out, the retry loop performs exactly the remaining `m - attempt` calls
and ends with the timeout error. -/
theorem retryGo_all_timeout (o : Nat → Int)
    (ho : ∀ j, o j = LIBUSB_ERROR_TIMEOUT) (m : Nat) :
    ∀ (fuel attempt : Nat), attempt ≤ m → m - attempt ≤ fuel →
      retryGo o (m : Int) fuel attempt LIBUSB_ERROR_TIMEOUT =
        some (m, LIBUSB_ERROR_TIMEOUT) := by
  intro fuel
  induction fuel with
  | zero =>
    intro attempt h1 h2
    have h3 : attempt = m := by omega
    subst h3
    unfold retryGo
    rw [if_neg]
    rintro ⟨h | h, -⟩ <;> omega
  | succ f ih =>
    intro attempt h1 h2
    by_cases hc : attempt = m
    · subst hc
      unfold retryGo
      rw [if_neg]
      rintro ⟨h | h, -⟩ <;> omega
    · have hlt : attempt < m := by omega
      unfold retryGo
      rw [if_pos ⟨Or.inl (by exact_mod_cast hlt), rfl⟩]
      show retryGo o (m : Int) f (attempt + 1) (o attempt) =
        some (m, LIBUSB_ERROR_TIMEOUT)
      rw [ho attempt]
      exact ih (attempt + 1) (by omega) (by omega)

/-- A non-timeout outcome at any attempt position `k` (all earlier calls
timing out, `k` within the attempt bound) stops the retry loop right
after that call: exactly `k + 1` underlying calls, reporting that call's
code. -/
theorem retryGo_abort_at (o : Nat → Int) (e : Int) (k : Nat)
    (hpre : ∀ j, j < k → o j = LIBUSB_ERROR_TIMEOUT)
    (hk : o k = e) (he : e ≠ LIBUSB_ERROR_TIMEOUT) (attempts : Int)
    (ha : (k : Int) < attempts ∨ attempts = -1) :
    ∀ (f attempt : Nat), attempt ≤ k → k - attempt < f →
      retryGo o attempts f attempt LIBUSB_ERROR_TIMEOUT = some (k + 1, e) := by
  intro f
  induction f with
  | zero =>
    intro attempt h1 h2
    omega
  | succ f ih =>
    intro attempt h1 h2
    have hcond : (attempt : Int) < attempts ∨ attempts = -1 := by
      rcases ha with h | h
      · exact Or.inl (by omega)
      · exact Or.inr h
    by_cases hak : attempt = k
    · subst hak
      unfold retryGo
      rw [if_pos ⟨hcond, rfl⟩]
      show retryGo o attempts f (attempt + 1) (o attempt) = some (attempt + 1, e)
      rw [hk]
      unfold retryGo
      rw [if_neg (fun h => he h.2)]
    · have hlt : attempt < k := by omega
      unfold retryGo
      rw [if_pos ⟨hcond, rfl⟩]
      show retryGo o attempts f (attempt + 1) (o attempt) = some (k + 1, e)
      rw [hpre attempt hlt]
      exact ih (attempt + 1) (by omega) (by omega)

/-- With `attempts = -1` and every underlying call timing out, the retry
loop never terminates: it exhausts any amount of fuel. -/
theorem retryGo_unbounded (o : Nat → Int)
    (ho : ∀ j, o j = LIBUSB_ERROR_TIMEOUT) :
    ∀ (fuel attempt : Nat),
      retryGo o (-1) fuel attempt LIBUSB_ERROR_TIMEOUT = none := by
  intro fuel
  induction fuel with
  | zero =>
    intro attempt
    unfold retryGo
    rw [if_pos ⟨Or.inr rfl, rfl⟩]
  | succ f ih =>
    intro attempt
    unfold retryGo
    rw [if_pos ⟨Or.inr rfl, rfl⟩]
    show retryGo o (-1) f (attempt + 1) (o attempt) = none
    rw [ho attempt]
    exact ih (attempt + 1)

/-- If the very first underlying bulk call does not time out,
`bulkTransfer` on an open handle performs exactly that one call:
device-gone drives the disconnect, a negative code is returned as is,
and otherwise the transferred byte count is returned. -/
theorem bulkTransfer_first (s : ScopeDevice) (hH : s.hasHandle = true)
    (o : Nat → Int × Nat) (e : Int) (t : Nat) (h0 : o 0 = (e, t))
    (he : e ≠ LIBUSB_ERROR_TIMEOUT) (attempts : Int)
    (ha : 0 < attempts ∨ attempts = -1) (ep len tmo f : Nat) :
    s.bulkTransfer o ep len attempts tmo (f + 1) =
      some (if e = LIBUSB_ERROR_NO_DEVICE then s.disconnectFromDevice else s,
        if e < 0 then e else (t : Int)) := by
  unfold ScopeDevice.bulkTransfer
  rw [hH]
  simp only [Bool.not_true, Bool.false_eq_true, if_false]
  have hloop : bulkRetryGo o attempts (f + 1) 0 LIBUSB_ERROR_TIMEOUT 0 =
      some (1, e, t) := by
    unfold bulkRetryGo
    rw [if_pos ⟨by exact_mod_cast ha, rfl⟩]
    show bulkRetryGo o attempts f 1 (o 0).1 (o 0).2 = some (1, e, t)
    rw [h0]
    unfold bulkRetryGo
    rw [if_neg (fun h => he h.2)]
  rw [hloop]
  by_cases hlt : e < 0 <;> simp [hlt]

/-! ## Claim C1: device-gone forces disconnection -/

/-- C1: on a real (non-demo) device, whenever a control or bulk transfer
returns `LIBUSB_ERROR_NO_DEVICE` coming out of an underlying libusb
operation (the handle was open, so the early-return path is excluded),
the device has been driven to the disconnected state before the error is
returned: `isConnected()` is false, the handle is released, and exactly
one disconnection notification was fired. -/
theorem c1_no_device_disconnects (s : ScopeDevice) (hReal : s.realHW = true)
    (hDev : s.hasDevice = true) (hH : s.hasHandle = true)
    (hD : s.disconnected = false)
    (oc : Nat → Int) (ty rq ln : Nat) (v ix : Int) (ac : Int) (fc : Nat)
    (sc : ScopeDevice) (rc : Int) (nc : Nat)
    (hc : s.controlTransfer oc ty rq ln v ix ac fc = some (sc, rc, nc))
    (hrc : rc = LIBUSB_ERROR_NO_DEVICE)
    (ob : Nat → Int × Nat) (ep lnb : Nat) (ab : Int) (tmo fb : Nat)
    (sb : ScopeDevice) (rb : Int)
    (hb : s.bulkTransfer ob ep lnb ab tmo fb = some (sb, rb))
    (hrb : rb = LIBUSB_ERROR_NO_DEVICE) :
    (sc.isConnected = false ∧ sc.hasHandle = false ∧
      sc.disconnectEmits = s.disconnectEmits + 1) ∧
    (sb.isConnected = false ∧ sb.hasHandle = false ∧
      sb.disconnectEmits = s.disconnectEmits + 1) := by
  have hfacts := disconnectFromDevice_facts s hReal hDev
  constructor
  · unfold ScopeDevice.controlTransfer at hc
    rw [hH, hD] at hc
    simp only [Bool.not_true, Bool.or_false, Bool.false_eq_true, if_false] at hc
    rcases hret : retryGo oc ac fc 0 LIBUSB_ERROR_TIMEOUT with _ | ⟨n, e⟩
    · rw [hret] at hc
      exact absurd hc (by simp)
    · rw [hret] at hc
      simp only [Option.some.injEq, Prod.mk.injEq] at hc
      obtain ⟨hsc, hrc2, -⟩ := hc
      subst hrc
      rw [← hrc2] at hsc
      rw [← hsc]
      simpa using hfacts
  · unfold ScopeDevice.bulkTransfer at hb
    rw [hH] at hb
    simp only [Bool.not_true, Bool.false_eq_true, if_false] at hb
    rcases hret : bulkRetryGo ob ab fb 0 LIBUSB_ERROR_TIMEOUT 0 with _ | ⟨n, e, t⟩
    · rw [hret] at hb
      exact absurd hb (by simp)
    · rw [hret] at hb
      by_cases hlt : e < 0
      · simp only [hlt, if_pos, Option.some.injEq, Prod.mk.injEq] at hb
        obtain ⟨hsb, hrb2⟩ := hb
        subst hrb
        rw [← hrb2] at hsb
        rw [← hsb]
        simpa using hfacts
      · simp only [hlt, if_neg, if_false, Option.some.injEq, Prod.mk.injEq] at hb
        obtain ⟨-, hrb2⟩ := hb
        subst hrb
        rw [LIBUSB_ERROR_NO_DEVICE] at hrb2
        omega

/-- Witness for C1 at a concrete connected device whose underlying calls
report `LIBUSB_ERROR_NO_DEVICE`. -/
theorem c1_no_device_disconnects_witness :
    ((({ ScopeDevice.init 1205 24610 516 1205 24610 516 with
          hasHandle := true, disconnected := false } :
        ScopeDevice).disconnectFromDevice.isConnected = false ∧
      ({ ScopeDevice.init 1205 24610 516 1205 24610 516 with
          hasHandle := true, disconnected := false } :
        ScopeDevice).disconnectFromDevice.hasHandle = false ∧
      ({ ScopeDevice.init 1205 24610 516 1205 24610 516 with
          hasHandle := true, disconnected := false } :
        ScopeDevice).disconnectFromDevice.disconnectEmits =
        ({ ScopeDevice.init 1205 24610 516 1205 24610 516 with
            hasHandle := true, disconnected := false } :
          ScopeDevice).disconnectEmits + 1) ∧
     (({ ScopeDevice.init 1205 24610 516 1205 24610 516 with
          hasHandle := true, disconnected := false } :
        ScopeDevice).disconnectFromDevice.isConnected = false ∧
      ({ ScopeDevice.init 1205 24610 516 1205 24610 516 with
          hasHandle := true, disconnected := false } :
        ScopeDevice).disconnectFromDevice.hasHandle = false ∧
      ({ ScopeDevice.init 1205 24610 516 1205 24610 516 with
          hasHandle := true, disconnected := false } :
        ScopeDevice).disconnectFromDevice.disconnectEmits =
        ({ ScopeDevice.init 1205 24610 516 1205 24610 516 with
            hasHandle := true, disconnected := false } :
          ScopeDevice).disconnectEmits + 1)) :=
  c1_no_device_disconnects
    { ScopeDevice.init 1205 24610 516 1205 24610 516 with
        hasHandle := true, disconnected := false }
    rfl rfl rfl rfl
    (fun _ => -4) 0 0 0 0 0 1 1
    ({ ScopeDevice.init 1205 24610 516 1205 24610 516 with
        hasHandle := true, disconnected := false } :
      ScopeDevice).disconnectFromDevice (-4) 1 (by decide) rfl
    (fun _ => (-4, 0)) 134 64 1 250 1
    ({ ScopeDevice.init 1205 24610 516 1205 24610 516 with
        hasHandle := true, disconnected := false } :
      ScopeDevice).disconnectFromDevice (-4) (by decide) rfl

/-! ## Claim C2: controlTransfer retry policy -/

/-- C2: a control transfer on a connected device with `maxAttempts = 3`
whose every underlying attempt times out performs exactly 3 underlying
libusb calls and returns the timeout error code, not a byte count; a
non-timeout failure at any attempt position `k` (all earlier attempts
timed out, `k` within the attempt bound) stops the loop right after that
call — exactly `k + 1` underlying calls, no further attempts; and with
`maxAttempts = -1` an all-timeout run never terminates, whatever the
fuel. -/
theorem c2_controlTransfer_retry (s : ScopeDevice) (hH : s.hasHandle = true)
    (hD : s.disconnected = false)
    (oT : Nat → Int) (hoT : ∀ j, oT j = LIBUSB_ERROR_TIMEOUT)
    (oE : Nat → Int) (e : Int) (he : e ≠ LIBUSB_ERROR_TIMEOUT)
    (attempts2 : Int)
    (ty rq ln : Nat) (v ix : Int) (f1 f2 : Nat) :
    (s.controlTransfer oT ty rq ln v ix 3 (f1 + 3) =
      some (s, LIBUSB_ERROR_TIMEOUT, 3)) ∧
    (∀ k : Nat, (∀ j, j < k → oE j = LIBUSB_ERROR_TIMEOUT) → oE k = e →
      ((k : Int) < attempts2 ∨ attempts2 = -1) →
      s.controlTransfer oE ty rq ln v ix attempts2 (f2 + k + 1) =
        some ((if e = LIBUSB_ERROR_NO_DEVICE then s.disconnectFromDevice else s),
          e, k + 1)) ∧
    (∀ fuel, s.controlTransfer oT ty rq ln v ix (-1) fuel = none) := by
  have hentry : (!s.hasHandle || s.disconnected) = false := by
    rw [hH, hD]
    rfl
  refine ⟨?_, ?_, ?_⟩
  · unfold ScopeDevice.controlTransfer
    rw [hentry]
    simp only [Bool.false_eq_true, if_false]
    have h3 := retryGo_all_timeout oT hoT 3 (f1 + 3) 0 (by omega) (by omega)
    rw [show ((3 : Nat) : Int) = (3 : Int) from rfl] at h3
    rw [h3]
    simp [LIBUSB_ERROR_TIMEOUT, LIBUSB_ERROR_NO_DEVICE]
  · intro k hpre hk hbound
    unfold ScopeDevice.controlTransfer
    rw [hentry]
    simp only [Bool.false_eq_true, if_false]
    rw [retryGo_abort_at oE e k hpre hk he attempts2 hbound (f2 + k + 1) 0
      (by omega) (by omega)]
  · intro fuel
    unfold ScopeDevice.controlTransfer
    rw [hentry]
    simp only [Bool.false_eq_true, if_false]
    rw [retryGo_unbounded oT hoT fuel 0]

/-- Witness for C2 at a concrete connected device: an all-timeout oracle
with 3 attempts gives 3 calls and the timeout code; an oracle timing out
twice and then failing with a pipe error (-9) under `maxAttempts = 5`
stops after exactly 3 calls; unbounded attempts with fuel 5 do not
terminate. -/
theorem c2_controlTransfer_retry_witness :
    (({ ScopeDevice.init 1205 24610 516 1205 24610 516 with
          hasHandle := true, disconnected := false } :
        ScopeDevice).controlTransfer (fun _ => LIBUSB_ERROR_TIMEOUT)
        64 178 10 0 0 3 (0 + 3) =
      some ({ ScopeDevice.init 1205 24610 516 1205 24610 516 with
          hasHandle := true, disconnected := false }, LIBUSB_ERROR_TIMEOUT, 3)) ∧
    (({ ScopeDevice.init 1205 24610 516 1205 24610 516 with
          hasHandle := true, disconnected := false } :
        ScopeDevice).controlTransfer
        (fun n => if n < 2 then LIBUSB_ERROR_TIMEOUT else -9)
        64 178 10 0 0 5 (0 + 2 + 1) =
      some ((if (-9 : Int) = LIBUSB_ERROR_NO_DEVICE then
          ({ ScopeDevice.init 1205 24610 516 1205 24610 516 with
              hasHandle := true, disconnected := false } :
            ScopeDevice).disconnectFromDevice
        else
          { ScopeDevice.init 1205 24610 516 1205 24610 516 with
              hasHandle := true, disconnected := false }), -9, 2 + 1)) ∧
    (({ ScopeDevice.init 1205 24610 516 1205 24610 516 with
          hasHandle := true, disconnected := false } :
        ScopeDevice).controlTransfer (fun _ => LIBUSB_ERROR_TIMEOUT)
        64 178 10 0 0 (-1) 5 = none) :=
  ⟨(c2_controlTransfer_retry
      { ScopeDevice.init 1205 24610 516 1205 24610 516 with
          hasHandle := true, disconnected := false }
      rfl rfl (fun _ => LIBUSB_ERROR_TIMEOUT) (fun _ => rfl)
      (fun n => if n < 2 then LIBUSB_ERROR_TIMEOUT else -9) (-9) (by decide) 5
      64 178 10 0 0 0 0).1,
   (c2_controlTransfer_retry
      { ScopeDevice.init 1205 24610 516 1205 24610 516 with
          hasHandle := true, disconnected := false }
      rfl rfl (fun _ => LIBUSB_ERROR_TIMEOUT) (fun _ => rfl)
      (fun n => if n < 2 then LIBUSB_ERROR_TIMEOUT else -9) (-9) (by decide) 5
      64 178 10 0 0 0 0).2.1 2 (fun j hj => if_pos hj) rfl
      (Or.inl (by decide)),
   (c2_controlTransfer_retry
      { ScopeDevice.init 1205 24610 516 1205 24610 516 with
          hasHandle := true, disconnected := false }
      rfl rfl (fun _ => LIBUSB_ERROR_TIMEOUT) (fun _ => rfl)
      (fun n => if n < 2 then LIBUSB_ERROR_TIMEOUT else -9) (-9) (by decide) 5
      64 178 10 0 0 0 0).2.2 5⟩

/-! ## Helper lemmas on the chunk loop -/

/-- The chunk loop exits, touching nothing, once its condition fails. -/
theorem chunksGo_exit (o : Nat → Nat → Int × Nat) (attempts : Int)
    (tm length : Nat) (stopObs : Nat → Bool) (f : Nat) (s : ScopeDevice)
    (packet received : Nat) (retCode : Int) (fl : Nat)
    (h : ¬ (received < length ∧ retCode = (packetLength : Int))) :
    ScopeDevice.bulkReadChunksGo o attempts tm length stopObs f s packet
      retCode received fl = some (s, packet, retCode, received) := by
  unfold ScopeDevice.bulkReadChunksGo
  rw [if_neg h]

/-- The chunk loop breaks out, issuing no transfer, when the stop flag
is observed set. -/
theorem chunksGo_stop (o : Nat → Nat → Int × Nat) (attempts : Int)
    (tm length : Nat) (stopObs : Nat → Bool) (f : Nat) (s : ScopeDevice)
    (packet received : Nat) (fl : Nat)
    (hrec : received < length) (hstop : stopObs packet = true) :
    ScopeDevice.bulkReadChunksGo o attempts tm length stopObs f s packet
        (packetLength : Int) received (fl + 1) =
      some (s, packet, (packetLength : Int), received) := by
  unfold ScopeDevice.bulkReadChunksGo
  rw [if_pos ⟨hrec, rfl⟩]
  show (if stopObs packet then _ else _) = _
  rw [hstop]
  rfl

/-- One running iteration of the chunk loop: stop flag clear, one chunk
transfer with outcome `(s1, ret)`, positive results accumulated. -/
theorem chunksGo_step (o : Nat → Nat → Int × Nat) (attempts : Int)
    (tm length : Nat) (stopObs : Nat → Bool) (f : Nat) (s s1 : ScopeDevice)
    (packet received : Nat) (ret : Int) (fl : Nat)
    (hrec : received < length) (hstop : stopObs packet = false)
    (htr : s.bulkTransfer (o packet) HANTEK_EP_IN
        (min (length - received) packetLength) attempts (tm * 10) f =
      some (s1, ret)) :
    ScopeDevice.bulkReadChunksGo o attempts tm length stopObs f s packet
        (packetLength : Int) received (fl + 1) =
      ScopeDevice.bulkReadChunksGo o attempts tm length stopObs f s1 (packet + 1)
        ret (if ret > 0 then received + ret.toNat else received) fl := by
  conv_lhs => unfold ScopeDevice.bulkReadChunksGo
  rw [if_pos ⟨hrec, rfl⟩]
  show (if stopObs packet then _ else _) = _
  rw [hstop]
  show (match s.bulkTransfer (o packet) HANTEK_EP_IN
      (min (length - received) packetLength) attempts (tm * 10) f with
    | none => none
    | some (s1, ret) =>
      ScopeDevice.bulkReadChunksGo o attempts tm length stopObs f s1 (packet + 1)
        ret (if ret > 0 then received + ret.toNat else received) fl) = _
  rw [htr]

/-- A run of the chunk loop in which every chunk transfer returns a full
chunk and the stop flag is never observed: starting `n` full chunks
short of `length`, the loop performs exactly `n` more chunk transfers,
accumulates up to `length` and leaves the device state untouched. -/
theorem chunksGo_success_run (o : Nat → Nat → Int × Nat) (attempts : Int)
    (tm length : Nat) (stopObs : Nat → Bool) (f : Nat) (s : ScopeDevice)
    (hH : s.hasHandle = true) (ha : 0 < attempts ∨ attempts = -1)
    (ho : ∀ k j, o k j = (LIBUSB_SUCCESS, packetLength))
    (hsn : ∀ k, stopObs k = false) :
    ∀ (n packet received fl : Nat), received + n * packetLength = length →
      ScopeDevice.bulkReadChunksGo o attempts tm length stopObs (f + 1) s packet
          (packetLength : Int) received (fl + n) =
        some (s, packet + n, (packetLength : Int), length) := by
  intro n
  induction n with
  | zero =>
    intro packet received fl hlen
    have hrec : received = length := by omega
    subst hrec
    exact chunksGo_exit o attempts tm received stopObs (f + 1) s packet received
      (packetLength : Int) (fl + 0) (fun h => absurd h.1 (by omega))
  | succ n ih =>
    intro packet received fl hlen
    have hcpos : 0 < packetLength := by norm_num [packetLength]
    rw [Nat.succ_mul] at hlen
    have hrec : received < length := by omega
    have htr : s.bulkTransfer (o packet) HANTEK_EP_IN
        (min (length - received) packetLength) attempts (tm * 10) (f + 1) =
        some (s, (packetLength : Int)) := by
      rw [bulkTransfer_first s hH (o packet) LIBUSB_SUCCESS packetLength
        (ho packet 0) (by decide) attempts ha HANTEK_EP_IN
        (min (length - received) packetLength) (tm * 10) f]
      norm_num [LIBUSB_SUCCESS, LIBUSB_ERROR_NO_DEVICE]
    have hstep := chunksGo_step o attempts tm length stopObs (f + 1) s s packet
      received (packetLength : Int) (fl + n) hrec (hsn packet) htr
    have hfl : fl + (n + 1) = (fl + n) + 1 := by omega
    rw [hfl, hstep]
    have hrecv : (if (packetLength : Int) > 0 then
        received + ((packetLength : Nat) : Int).toNat else received) =
        received + packetLength := by
      rw [if_pos (by exact_mod_cast hcpos)]
      simp
    rw [hrecv]
    rw [show packet + (n + 1) = packet + 1 + n from by omega]
    exact ih (packet + 1) (received + packetLength) fl (by omega)

/-! ## Claim C3: chunked bulkReadMulti -/

/-- C3: on a connected device in chunked mode with
`requestedLength = 3 * packetLength`, all chunk transfers returning a
full chunk, `bulkReadMulti` reports `received = 3 * packetLength`; if
the stop flag is observed set after the first full chunk, the chunk loop
issues exactly one chunk transfer and `bulkReadMulti` reports
`received = packetLength`. -/
theorem c3_chunked_bulkReadMulti (s : ScopeDevice) (hH : s.hasHandle = true)
    (hD : s.disconnected = false) (attempts : Int)
    (ha : 0 < attempts ∨ attempts = -1) (tm r0 f fl : Nat)
    (o : Nat → Nat → Int × Nat)
    (ho : ∀ k j, o k j = (LIBUSB_SUCCESS, packetLength))
    (stopNever stopAfterFirst : Nat → Bool)
    (hsn : ∀ k, stopNever k = false)
    (hsa0 : stopAfterFirst 0 = false) (hsa1 : stopAfterFirst 1 = true) :
    (s.bulkReadMulti o (3 * packetLength) true r0 attempts stopNever tm
        (f + 1) (fl + 3) =
      some (s, ((3 * packetLength : Nat) : Int), 3 * packetLength)) ∧
    (ScopeDevice.bulkReadChunksGo o attempts tm (3 * packetLength) stopAfterFirst
        (f + 1) s 0 (packetLength : Int) 0 (fl + 2) =
      some (s, 1, (packetLength : Int), packetLength)) ∧
    (s.bulkReadMulti o (3 * packetLength) true r0 attempts stopAfterFirst tm
        (f + 1) (fl + 2) =
      some (s, ((packetLength : Nat) : Int), packetLength)) := by
  have hentry : (!s.hasHandle || s.disconnected) = false := by
    rw [hH, hD]
    rfl
  have hcpos : 0 < packetLength := by norm_num [packetLength]
  have hstopchain :
      ScopeDevice.bulkReadChunksGo o attempts tm (3 * packetLength) stopAfterFirst
          (f + 1) s 0 (packetLength : Int) 0 (fl + 2) =
        some (s, 1, (packetLength : Int), packetLength) := by
    have htr : s.bulkTransfer (o 0) HANTEK_EP_IN
        (min (3 * packetLength - 0) packetLength) attempts (tm * 10) (f + 1) =
        some (s, (packetLength : Int)) := by
      rw [bulkTransfer_first s hH (o 0) LIBUSB_SUCCESS packetLength
        (ho 0 0) (by decide) attempts ha HANTEK_EP_IN
        (min (3 * packetLength - 0) packetLength) (tm * 10) f]
      norm_num [LIBUSB_SUCCESS, LIBUSB_ERROR_NO_DEVICE]
    have hstep := chunksGo_step o attempts tm (3 * packetLength) stopAfterFirst
      (f + 1) s s 0 0 (packetLength : Int) (fl + 1) (by omega) hsa0 htr
    rw [show fl + 2 = (fl + 1) + 1 from rfl, hstep]
    have hrecv : (if (packetLength : Int) > 0 then
        0 + ((packetLength : Nat) : Int).toNat else 0) = packetLength := by
      rw [if_pos (by exact_mod_cast hcpos)]
      simp
    rw [hrecv]
    exact chunksGo_stop o attempts tm (3 * packetLength) stopAfterFirst (f + 1) s
      1 packetLength fl (by omega) hsa1
  refine ⟨?_, hstopchain, ?_⟩
  · conv_lhs => unfold ScopeDevice.bulkReadMulti
    rw [hentry]
    simp only [Bool.false_eq_true, if_false, if_true]
    rw [chunksGo_success_run o attempts tm (3 * packetLength) stopNever f s hH ha
      ho hsn 3 0 0 fl (by omega)]
    have h3pos : 0 < 3 * packetLength := by omega
    simp [h3pos]
  · conv_lhs => unfold ScopeDevice.bulkReadMulti
    rw [hentry]
    simp only [Bool.false_eq_true, if_false, if_true]
    rw [hstopchain]
    simp [hcpos]

/-- Witness for C3 at a concrete connected device: three full chunks for
`requestedLength = 3 * packetLength`, and one chunk when the stop flag
is observed from the second check on. -/
theorem c3_chunked_bulkReadMulti_witness :
    (({ ScopeDevice.init 1205 24610 516 1205 24610 516 with
          hasHandle := true, disconnected := false } :
        ScopeDevice).bulkReadMulti (fun _ _ => (LIBUSB_SUCCESS, packetLength))
        (3 * packetLength) true 0 1 (fun _ => false) 10 (0 + 1) (0 + 3) =
      some ({ ScopeDevice.init 1205 24610 516 1205 24610 516 with
          hasHandle := true, disconnected := false },
        ((3 * packetLength : Nat) : Int), 3 * packetLength)) ∧
    (ScopeDevice.bulkReadChunksGo (fun _ _ => (LIBUSB_SUCCESS, packetLength)) 1
        10 (3 * packetLength) (fun k => decide (1 ≤ k)) (0 + 1)
        { ScopeDevice.init 1205 24610 516 1205 24610 516 with
            hasHandle := true, disconnected := false }
        0 (packetLength : Int) 0 (0 + 2) =
      some ({ ScopeDevice.init 1205 24610 516 1205 24610 516 with
          hasHandle := true, disconnected := false },
        1, (packetLength : Int), packetLength)) ∧
    (({ ScopeDevice.init 1205 24610 516 1205 24610 516 with
          hasHandle := true, disconnected := false } :
        ScopeDevice).bulkReadMulti (fun _ _ => (LIBUSB_SUCCESS, packetLength))
        (3 * packetLength) true 0 1 (fun k => decide (1 ≤ k)) 10 (0 + 1) (0 + 2) =
      some ({ ScopeDevice.init 1205 24610 516 1205 24610 516 with
          hasHandle := true, disconnected := false },
        ((packetLength : Nat) : Int), packetLength)) :=
  c3_chunked_bulkReadMulti
    { ScopeDevice.init 1205 24610 516 1205 24610 516 with
        hasHandle := true, disconnected := false }
    rfl rfl 1 (Or.inl (by decide)) 10 0 0 0
    (fun _ _ => (LIBUSB_SUCCESS, packetLength)) (fun _ _ => rfl)
    (fun _ => false) (fun k => decide (1 ≤ k)) (fun _ => rfl) rfl rfl

/-! ## Claim C4: error propagation in bulkReadMulti -/

/-- C4 counterexample: in chunked mode, when the first chunk succeeded
in full and the second underlying chunk transfer returns the negative
code -1, `bulkReadMulti` does not leave `received = 0` and does not
propagate the error: it reports the accumulated byte count
`packetLength` both as `received` and as its return value, swallowing
the error. -/
theorem c4_error_propagation_cex :
    ((fun k (_ : Nat) => if k = 0 then ((LIBUSB_SUCCESS : Int), packetLength)
        else ((-1 : Int), 0)) 1 0 = ((-1 : Int), 0)) ∧
    (({ ScopeDevice.init 1205 24610 516 1205 24610 516 with
          hasHandle := true, disconnected := false } :
        ScopeDevice).bulkReadMulti
        (fun k _ => if k = 0 then ((LIBUSB_SUCCESS : Int), packetLength)
          else ((-1 : Int), 0))
        (3 * packetLength) true 0 1 (fun _ => false) 10 1 5 =
      some ({ ScopeDevice.init 1205 24610 516 1205 24610 516 with
          hasHandle := true, disconnected := false },
        ((packetLength : Nat) : Int), packetLength)) ∧
    packetLength ≠ 0 ∧ ((packetLength : Nat) : Int) ≠ -1 := by
  decide

/-- C4 (amended): a negative underlying result leaves `received = 0` and
propagates the error code in bulk mode, and in chunked mode when the
failing chunk is the first one (no data accumulated yet); when earlier
chunks already delivered data, the accumulated count is returned instead
(see the counterexample). -/
theorem c4_error_propagation_amended (s : ScopeDevice) (hH : s.hasHandle = true)
    (hD : s.disconnected = false) (o : Nat → Nat → Int × Nat)
    (length r0 : Nat) (attempts : Int) (stopObs : Nat → Bool) (tm f fl : Nat)
    (ret : Int) (s1 : ScopeDevice) (hneg : ret < 0) :
    (stopObs 0 = false →
      s.bulkTransfer (o 0) HANTEK_EP_IN length attempts
          (bulkModeTimeout tm length s.inPacketLength) f = some (s1, ret) →
      s.bulkReadMulti o length false r0 attempts stopObs tm f fl =
        some ({ s1 with stopTransfer := false }, ret, 0)) ∧
    (stopObs 0 = false → 0 < length →
      s.bulkTransfer (o 0) HANTEK_EP_IN (min (length - 0) packetLength) attempts
          (tm * 10) f = some (s1, ret) →
      s.bulkReadMulti o length true r0 attempts stopObs tm f (fl + 2) =
        some (s1, ret, 0)) := by
  have hentry : (!s.hasHandle || s.disconnected) = false := by
    rw [hH, hD]
    rfl
  constructor
  · intro hstop htr
    conv_lhs => unfold ScopeDevice.bulkReadMulti
    rw [hentry]
    simp only [Bool.false_eq_true, if_false, hstop, htr]
    rw [if_pos hneg]
  · intro hstop hlen htr
    have hstep := chunksGo_step o attempts tm length stopObs f s s1 0 0 ret
      (fl + 1) hlen hstop htr
    have hrecv : (if ret > 0 then 0 + ret.toNat else 0) = 0 := by
      rw [if_neg (by omega)]
    rw [hrecv] at hstep
    have hexit : ScopeDevice.bulkReadChunksGo o attempts tm length stopObs f s1 1
        ret 0 (fl + 1) = some (s1, 1, ret, 0) := by
      refine chunksGo_exit o attempts tm length stopObs f s1 1 0 ret (fl + 1) ?_
      rintro ⟨-, h2⟩
      rw [h2] at hneg
      omega
    conv_lhs => unfold ScopeDevice.bulkReadMulti
    rw [hentry]
    simp only [Bool.false_eq_true, if_false, if_true]
    rw [show fl + 2 = (fl + 1) + 1 from rfl, hstep, hexit]
    simp

/-- Witness for C4 (amended) at a concrete connected device whose first
underlying transfer fails with -1, in both modes. -/
theorem c4_error_propagation_amended_witness :
    (({ ScopeDevice.init 1205 24610 516 1205 24610 516 with
          hasHandle := true, disconnected := false } :
        ScopeDevice).bulkReadMulti (fun _ _ => ((-1 : Int), 0)) 1024 false 7 1
        (fun _ => false) 10 1 5 =
      some ({ ({ ScopeDevice.init 1205 24610 516 1205 24610 516 with
            hasHandle := true, disconnected := false } : ScopeDevice) with
          stopTransfer := false }, -1, 0)) ∧
    (({ ScopeDevice.init 1205 24610 516 1205 24610 516 with
          hasHandle := true, disconnected := false } :
        ScopeDevice).bulkReadMulti (fun _ _ => ((-1 : Int), 0)) 1024 true 7 1
        (fun _ => false) 10 1 (3 + 2) =
      some ({ ScopeDevice.init 1205 24610 516 1205 24610 516 with
          hasHandle := true, disconnected := false }, -1, 0)) :=
  ⟨(c4_error_propagation_amended
      { ScopeDevice.init 1205 24610 516 1205 24610 516 with
          hasHandle := true, disconnected := false }
      rfl rfl (fun _ _ => ((-1 : Int), 0)) 1024 7 1 (fun _ => false) 10 1 3
      (-1)
      { ScopeDevice.init 1205 24610 516 1205 24610 516 with
          hasHandle := true, disconnected := false }
      (by decide)).1 rfl (by decide),
   (c4_error_propagation_amended
      { ScopeDevice.init 1205 24610 516 1205 24610 516 with
          hasHandle := true, disconnected := false }
      rfl rfl (fun _ _ => ((-1 : Int), 0)) 1024 7 1 (fun _ => false) 10 1 3
      (-1)
      { ScopeDevice.init 1205 24610 516 1205 24610 516 with
          hasHandle := true, disconnected := false }
      (by decide)).2 rfl (by decide) (by decide)⟩

/-! ## Helper lemmas for the device identifier -/

/-- Merging disjoint bit ranges: `(a <<< k) ||| b` is plain addition when
`b` fits in the low `k` bits. -/
theorem shiftLeft_or_eq_add (a b k : Nat) (hb : b < 2 ^ k) :
    (a <<< k) ||| b = a * 2 ^ k + b := by
  rw [Nat.shiftLeft_eq, Nat.mul_comm]
  exact (Nat.mul_add_lt_is_or hb a).symm

/-- Masking with 15 keeps a port number that is already at most 15. -/
theorem and_fifteen_eq (p : Nat) (hp : p ≤ 15) : p &&& 15 = p := by
  rw [show (15 : Nat) = 2 ^ 4 - 1 by norm_num, Nat.and_pow_two_sub_one_eq_mod]
  exact Nat.mod_eq_of_lt (by omega)

/-- The value of the zero-padded port nibbles: `n` four-bit slots, the
port numbers first (most significant), zeros after them. -/
def portsPadVal : List Nat → Nat → Nat
  | _, 0 => 0
  | [], n + 1 => 0
  | p :: rest, n + 1 => p * 16 ^ n + portsPadVal rest n

/-- The padded port value of the empty path is zero. -/
theorem portsPadVal_nil : ∀ n, portsPadVal [] n = 0
  | 0 => rfl
  | _ + 1 => rfl

/-- The padded port value fits in its `n` nibbles. -/
theorem portsPadVal_lt : ∀ (n : Nat) (l : List Nat), (∀ p ∈ l, p ≤ 15) →
    portsPadVal l n < 16 ^ n := by
  intro n
  induction n with
  | zero =>
    intro l h
    cases l <;> simp [portsPadVal]
  | succ n ih =>
    intro l h
    cases l with
    | nil => simp [portsPadVal_nil, Nat.pos_pow_of_pos, Nat.pow_pos]
    | cons p rest =>
      have hp : p ≤ 15 := (h p (List.mem_cons_self _ _))
      have h1 : portsPadVal rest n < 16 ^ n :=
        ih rest (fun q hq => h q (List.mem_cons_of_mem _ hq))
      show p * 16 ^ n + portsPadVal rest n < 16 ^ (n + 1)
      calc p * 16 ^ n + portsPadVal rest n < p * 16 ^ n + 16 ^ n := by omega
        _ = (p + 1) * 16 ^ n := by ring
        _ ≤ 16 * 16 ^ n := Nat.mul_le_mul_right _ (by omega)
        _ = 16 ^ (n + 1) := by ring

/-- The port-tree loop is the arithmetic packing: starting from `uid`,
`n` nibble slots shift `uid` up and append the padded port value, with
no 64-bit wrap-around as long as the final value fits. -/
theorem portTreeLoop_eq : ∀ (n : Nat) (uid : Nat) (l : List Nat),
    (∀ p ∈ l, p ≤ 15) → (uid + 1) * 16 ^ n ≤ 2 ^ 64 →
    portTreeLoop uid l n = uid * 16 ^ n + portsPadVal l n := by
  intro n
  induction n with
  | zero =>
    intro uid l hl hb
    cases l <;> simp [portTreeLoop, portsPadVal]
  | succ n ih =>
    intro uid l hl hb
    have h16 : (16 : Nat) ≤ 16 ^ (n + 1) := by
      calc (16 : Nat) = 16 ^ 1 := by norm_num
        _ ≤ 16 ^ (n + 1) := Nat.pow_le_pow_right (by norm_num) (by omega)
    cases l with
    | nil =>
      show portTreeLoop (u64 (uid <<< 4)) [] n = uid * 16 ^ (n + 1) + portsPadVal [] (n + 1)
      have hsh : uid <<< 4 = uid * 16 := by
        rw [Nat.shiftLeft_eq]
      have hlt : uid * 16 < 2 ^ 64 := by
        have h1 : uid * 16 < (uid + 1) * 16 := by omega
        have h2 : (uid + 1) * 16 ≤ (uid + 1) * 16 ^ (n + 1) :=
          Nat.mul_le_mul_left _ h16
        omega
      have hu : u64 (uid <<< 4) = uid * 16 := by
        rw [hsh]
        exact Nat.mod_eq_of_lt hlt
      rw [hu, ih (uid * 16) [] (by simp)
        (by
          have h1 : (uid * 16 + 1) * 16 ^ n ≤ ((uid + 1) * 16) * 16 ^ n :=
            Nat.mul_le_mul_right _ (by omega)
          have h2 : ((uid + 1) * 16) * 16 ^ n = (uid + 1) * 16 ^ (n + 1) := by ring
          omega)]
      rw [portsPadVal_nil, portsPadVal_nil]
      ring
    | cons p rest =>
      have hp : p ≤ 15 := hl p (List.mem_cons_self _ _)
      show portTreeLoop (u64 ((uid <<< 4) ||| (p &&& 15))) rest n =
        uid * 16 ^ (n + 1) + portsPadVal (p :: rest) (n + 1)
      have hor : (uid <<< 4) ||| (p &&& 15) = uid * 16 + p := by
        rw [and_fifteen_eq p hp, shiftLeft_or_eq_add uid p 4 (by omega)]
        norm_num
      have hlt : uid * 16 + p < 2 ^ 64 := by
        have h1 : uid * 16 + p < (uid + 1) * 16 := by omega
        have h2 : (uid + 1) * 16 ≤ (uid + 1) * 16 ^ (n + 1) :=
          Nat.mul_le_mul_left _ h16
        omega
      have hu : u64 ((uid <<< 4) ||| (p &&& 15)) = uid * 16 + p := by
        rw [hor]
        exact Nat.mod_eq_of_lt hlt
      rw [hu, ih (uid * 16 + p) rest (fun q hq => hl q (List.mem_cons_of_mem _ hq))
        (by
          have h1 : (uid * 16 + p + 1) * 16 ^ n ≤ ((uid + 1) * 16) * 16 ^ n :=
            Nat.mul_le_mul_right _ (by omega)
          have h2 : ((uid + 1) * 16) * 16 ^ n = (uid + 1) * 16 ^ (n + 1) := by ring
          omega)]
      rw [show portsPadVal (p :: rest) (n + 1) = p * 16 ^ n + portsPadVal rest n
        from rfl]
      ring

/-- `computeUSBdeviceID` in arithmetic form: for in-range inputs the
bit-shuffling packs the bus, the padded port path, the vendor id and the
firmware version side by side with no 64-bit wrap-around. -/
theorem computeUSBdeviceID_eq (bus : Nat) (ports : List Nat) (v f : Nat)
    (hbus : bus ≤ 15) (hports : ∀ p ∈ ports, p ≤ 15)
    (hv : v < 2 ^ 16) (hf : f < 2 ^ 16) :
    computeUSBdeviceID bus ports v f =
      ((bus * 16 ^ 7 + portsPadVal ports 7) * 2 ^ 16 + v) * 2 ^ 16 + f := by
  show u64 (u64 ((u64 (u64 ((portTreeLoop (bus &&& 15) ports 7) <<< 16) ||| v))
      <<< 16) ||| f) = _
  rw [and_fifteen_eq bus hbus]
  have e7 : (16 : Nat) ^ 7 = 268435456 := by norm_num
  have hP := portsPadVal_lt 7 ports hports
  rw [e7] at hP
  rw [portTreeLoop_eq 7 bus ports hports (by rw [e7]; omega)]
  rw [e7]
  have hAlt : bus * 268435456 + portsPadVal ports 7 < 4294967296 := by omega
  have h1 : (bus * 268435456 + portsPadVal ports 7) <<< 16 =
      (bus * 268435456 + portsPadVal ports 7) * 65536 := by
    rw [Nat.shiftLeft_eq]
  have h2 : u64 ((bus * 268435456 + portsPadVal ports 7) <<< 16) =
      (bus * 268435456 + portsPadVal ports 7) * 65536 := by
    rw [h1]
    show _ % 2 ^ 64 = _
    exact Nat.mod_eq_of_lt (by omega)
  rw [h2]
  have h3 : (bus * 268435456 + portsPadVal ports 7) * 65536 ||| v =
      (bus * 268435456 + portsPadVal ports 7) * 65536 + v := by
    rw [Nat.mul_comm]
    have hv2 : v < 2 ^ 16 := hv
    exact (Nat.mul_add_lt_is_or hv2 _).symm
  rw [h3]
  have h4 : u64 ((bus * 268435456 + portsPadVal ports 7) * 65536 + v) =
      (bus * 268435456 + portsPadVal ports 7) * 65536 + v := by
    show _ % 2 ^ 64 = _
    exact Nat.mod_eq_of_lt (by omega)
  rw [h4]
  have h5 : ((bus * 268435456 + portsPadVal ports 7) * 65536 + v) <<< 16 =
      ((bus * 268435456 + portsPadVal ports 7) * 65536 + v) * 65536 := by
    rw [Nat.shiftLeft_eq]
  have h6 : u64 (((bus * 268435456 + portsPadVal ports 7) * 65536 + v) <<< 16) =
      ((bus * 268435456 + portsPadVal ports 7) * 65536 + v) * 65536 := by
    rw [h5]
    show _ % 2 ^ 64 = _
    exact Nat.mod_eq_of_lt (by omega)
  rw [h6]
  have h7 : ((bus * 268435456 + portsPadVal ports 7) * 65536 + v) * 65536 ||| f =
      ((bus * 268435456 + portsPadVal ports 7) * 65536 + v) * 65536 + f := by
    rw [Nat.mul_comm]
    exact (Nat.mul_add_lt_is_or hf _).symm
  rw [h7]
  show _ % 2 ^ 64 = _
  rw [Nat.mod_eq_of_lt (by omega)]
  norm_num

/-- Place-value uniqueness: quotient and remainder below `m` are
determined by the packed value. -/
theorem pack_inj {a b va vb m : Nat} (hva : va < m) (hvb : vb < m)
    (h : a * m + va = b * m + vb) : a = b ∧ va = vb := by
  have hab : a = b := by
    rcases Nat.lt_trichotomy a b with hlt | heq | hgt
    · exfalso
      have hstep : a * m + va < b * m + vb := by
        calc a * m + va < a * m + m := by omega
          _ = (a + 1) * m := by ring
          _ ≤ b * m := Nat.mul_le_mul_right _ (by omega)
          _ ≤ b * m + vb := Nat.le_add_right _ _
      omega
    · exact heq
    · exfalso
      have hstep : b * m + vb < a * m + va := by
        calc b * m + vb < b * m + m := by omega
          _ = (b + 1) * m := by ring
          _ ≤ a * m := Nat.mul_le_mul_right _ (by omega)
          _ ≤ a * m + va := Nat.le_add_right _ _
      omega
  subst hab
  exact ⟨rfl, by omega⟩

/-- Two port paths of length at most `n` whose entries are genuine port
numbers (1..15) with the same padded `n`-nibble value are equal. -/
theorem portsPadVal_inj : ∀ (n : Nat) (l1 l2 : List Nat),
    (∀ p ∈ l1, 1 ≤ p ∧ p ≤ 15) → (∀ p ∈ l2, 1 ≤ p ∧ p ≤ 15) →
    l1.length ≤ n → l2.length ≤ n →
    portsPadVal l1 n = portsPadVal l2 n → l1 = l2 := by
  intro n
  induction n with
  | zero =>
    intro l1 l2 h1 h2 hl1 hl2 heq
    rw [Nat.le_zero, List.length_eq_zero] at hl1 hl2
    rw [hl1, hl2]
  | succ n ih =>
    intro l1 l2 h1 h2 hl1 hl2 heq
    have hpow : 0 < 16 ^ n := Nat.pos_pow_of_pos n (by norm_num)
    cases l1 with
    | nil =>
      cases l2 with
      | nil => rfl
      | cons q r2 =>
        exfalso
        have hq : 1 ≤ q := (h2 q (List.mem_cons_self _ _)).1
        have : portsPadVal ([] : List Nat) (n + 1) = 0 := rfl
        rw [this] at heq
        have hge : 16 ^ n ≤ q * 16 ^ n := Nat.le_mul_of_pos_left _ (by omega)
        have : q * 16 ^ n + portsPadVal r2 n = 0 := heq.symm
        omega
    | cons p r1 =>
      cases l2 with
      | nil =>
        exfalso
        have hp : 1 ≤ p := (h1 p (List.mem_cons_self _ _)).1
        have hz : portsPadVal ([] : List Nat) (n + 1) = 0 := rfl
        rw [hz] at heq
        have hge : 16 ^ n ≤ p * 16 ^ n := Nat.le_mul_of_pos_left _ (by omega)
        have hx : p * 16 ^ n + portsPadVal r1 n = 0 := heq
        omega
      | cons q r2 =>
        have hv1 : portsPadVal r1 n < 16 ^ n :=
          portsPadVal_lt n r1 (fun x hx => (h1 x (List.mem_cons_of_mem _ hx)).2)
        have hv2 : portsPadVal r2 n < 16 ^ n :=
          portsPadVal_lt n r2 (fun x hx => (h2 x (List.mem_cons_of_mem _ hx)).2)
        have heq2 : p * 16 ^ n + portsPadVal r1 n =
            q * 16 ^ n + portsPadVal r2 n := heq
        obtain ⟨hpq, hval⟩ := pack_inj hv1 hv2 heq2
        have hrest := ih r1 r2
          (fun x hx => h1 x (List.mem_cons_of_mem _ hx))
          (fun x hx => h2 x (List.mem_cons_of_mem _ hx))
          (by simpa using Nat.le_of_succ_le_succ (by simpa using hl1))
          (by simpa using Nat.le_of_succ_le_succ (by simpa using hl2))
          hval
        rw [hpq, hrest]

/-! ## Claim C7: injectivity of the device identifier -/

/-- C7: two topologies within the layout's ranges (bus in 0..15, up to 7
ports, each port 1..15) that differ in bus number or port path yield
distinct packed identifiers, for any fixed 16-bit vendor id and firmware
version. -/
theorem c7_computeUSBdeviceID_inj (b1 b2 v f : Nat) (p1 p2 : List Nat)
    (hb1 : b1 ≤ 15) (hb2 : b2 ≤ 15)
    (hl1 : p1.length ≤ 7) (hl2 : p2.length ≤ 7)
    (hp1 : ∀ p ∈ p1, 1 ≤ p ∧ p ≤ 15) (hp2 : ∀ p ∈ p2, 1 ≤ p ∧ p ≤ 15)
    (hv : v < 2 ^ 16) (hf : f < 2 ^ 16)
    (hne : b1 ≠ b2 ∨ p1 ≠ p2) :
    computeUSBdeviceID b1 p1 v f ≠ computeUSBdeviceID b2 p2 v f := by
  intro heq
  rw [computeUSBdeviceID_eq b1 p1 v f hb1 (fun p hp => (hp1 p hp).2) hv hf,
    computeUSBdeviceID_eq b2 p2 v f hb2 (fun p hp => (hp2 p hp).2) hv hf] at heq
  have hP1 : portsPadVal p1 7 < 16 ^ 7 :=
    portsPadVal_lt 7 p1 (fun p hp => (hp1 p hp).2)
  have hP2 : portsPadVal p2 7 < 16 ^ 7 :=
    portsPadVal_lt 7 p2 (fun p hp => (hp2 p hp).2)
  have hX : b1 * 16 ^ 7 + portsPadVal p1 7 = b2 * 16 ^ 7 + portsPadVal p2 7 := by
    omega
  have hbp : b1 = b2 ∧ portsPadVal p1 7 = portsPadVal p2 7 := by
    constructor <;> omega
  rcases hne with hne | hne
  · exact hne hbp.1
  · exact hne (portsPadVal_inj 7 p1 p2 hp1 hp2 hl1 hl2 hbp.2)

/-- Witness for C7 at concrete topologies: same bus, port paths [2] and
[3], vendor 0x04b5, firmware 0x0204 give different identifiers. -/
theorem c7_computeUSBdeviceID_inj_witness :
    computeUSBdeviceID 1 [2] 1205 516 ≠ computeUSBdeviceID 1 [3] 1205 516 :=
  c7_computeUSBdeviceID_inj 1 1 1205 516 [2] [3] (by decide) (by decide)
    (by decide) (by decide)
    (by intro p hp; simp only [List.mem_singleton] at hp; omega)
    (by intro p hp; simp only [List.mem_singleton] at hp; omega)
    (by decide) (by decide) (Or.inr (by decide))
